import Mathlib

/-!
A shallow embedding of `src/perl_io.py` (class documented as opening a file or
pipe in the Perl style).  The program is Python 2: `print >> sys.stderr` is a
statement, and `IOError` and `OSError` are distinct exception classes.

Modelling decisions:
* Strings are `List Char`.  `pyStrip` is Python's `str.strip()` (whitespace
  set ` \t\n\r\x0b\x0c`).
* `shlexStep` is Python's `shlex.split` in POSIX mode with
  `whitespace_split=True` and no comment characters (the configuration used by
  `shlex.split`); it returns `none` where `shlex.split` raises `ValueError`
  (unterminated quote, or a trailing escape character).
* The outside world is an oracle `Env`: whether `open(path, mode)` succeeds
  (raising `IOError` otherwise) and whether `subprocess.Popen(argv, ...)`
  succeeds (raising `OSError` otherwise, as CPython 2 does on spawn failure).
* Exceptions are the `Except PyExc` monad; an exception that the source
  catches (`except IOError`) is turned into the handler's behaviour, all
  others propagate.
-/

/-- Python exception classes that can escape or be caught in this program. -/
inductive PyExc where
  | indexError
  | attributeError
  | valueError
  | osError
deriving DecidableEq

/-- The file-like objects a `PerlIO` wrapper can hold: `sys.stdin`,
`sys.stdout`, a plain file object from `open(path, mode)`, or one end of a
subprocess pipe (`proc.stdout`, `proc.stdin`, `proc.stderr`), tagged by the
argv the process was spawned with. -/
inductive PyStream where
  | stdin
  | stdout
  | fileHandle (path : List Char) (mode : String)
  | procOut (argv : List (List Char))
  | procIn (argv : List (List Char))
  | procErr (argv : List (List Char))
deriving DecidableEq

/-- The state of a constructed wrapper: `_fo` (primary stream or the `None`
sentinel), `_proc` (the spawned process's argv, or `None`), and the diagnostic
text printed to `sys.stderr` by a caught open failure, if any. -/
structure PState where
  fo : Option PyStream
  proc : Option (List (List Char))
  diag : Option (List Char)
deriving DecidableEq

/-- Oracle for the outside world: does `open(path, mode)` succeed, and does
`subprocess.Popen(argv, ...)` succeed. -/
structure Env where
  openOk : List Char → String → Bool
  spawnOk : List (List Char) → Bool

/-- Python's whitespace set for `str.strip()`: space, tab, newline, carriage
return, vertical tab, form feed. -/
def isPyWS (c : Char) : Bool :=
  c = ' ' || c = '\t' || c = '\n' || c = '\r' || c = '\x0b' || c = '\x0c'

/-- Python's `s.strip()`: drop leading and trailing whitespace. -/
def pyStrip (s : List Char) : List Char :=
  ((s.dropWhile isPyWS).reverse.dropWhile isPyWS).reverse

/-- The `shlex` whitespace set: the token separators of `shlex.split` (space, tab,
carriage return, newline). -/
def isShWS (c : Char) : Bool :=
  c = ' ' || c = '\t' || c = '\r' || c = '\n'

/-- Lexer states of `shlex.split` in POSIX mode: outside quotes (with the
per-token `quoted` flag), inside single quotes, inside double quotes, after a
backslash outside quotes, after a backslash inside double quotes. -/
inductive SState where
  | norm (quoted : Bool)
  | single
  | double
  | esc (quoted : Bool)
  | desc
deriving DecidableEq

/-- The state machine of Python's `shlex.split(s)` (POSIX rules,
`whitespace_split=True`, comments disabled).  Arguments: remaining input,
lexer state, current token accumulated in reverse.  Returns `none` where
`shlex.split` raises `ValueError`: input ends inside a quote or right after a
backslash. -/
def shlexStep : List Char → SState → List Char → Option (List (List Char))
  | [], .norm quoted, tok =>
      if tok ≠ [] ∨ quoted = true then some [tok.reverse] else some []
  | [], .single, _ => none
  | [], .double, _ => none
  | [], .esc _, _ => none
  | [], .desc, _ => none
  | c :: rest, .norm quoted, tok =>
      if isShWS c then
        if tok ≠ [] ∨ quoted = true then
          (shlexStep rest (.norm false) []).map (fun ts => tok.reverse :: ts)
        else shlexStep rest (.norm false) []
      else if c = '\'' then shlexStep rest .single tok
      else if c = '"' then shlexStep rest .double tok
      else if c = '\\' then shlexStep rest (.esc quoted) tok
      else shlexStep rest (.norm quoted) (c :: tok)
  | c :: rest, .single, tok =>
      if c = '\'' then shlexStep rest (.norm true) tok
      else shlexStep rest .single (c :: tok)
  | c :: rest, .double, tok =>
      if c = '"' then shlexStep rest (.norm true) tok
      else if c = '\\' then shlexStep rest .desc tok
      else shlexStep rest .double (c :: tok)
  | c :: rest, .esc quoted, tok => shlexStep rest (.norm quoted) (c :: tok)
  | c :: rest, .desc, tok =>
      if c = '"' ∨ c = '\\' then shlexStep rest .double (c :: tok)
      else shlexStep rest .double (c :: '\\' :: tok)

/-- Entry point of `shlex.split(s)`: run the lexer from the initial state. -/
def shlexSplit (s : List Char) : Option (List (List Char)) :=
  shlexStep s (.norm false) []

/-- The shell metacharacters of `PerlIO._parse_command`'s regular expression:
vertical bar, less-than, greater-than, backtick, semicolon. -/
def isShellMeta (c : Char) : Bool :=
  c = '|' || c = '<' || c = '>' || c = '\x60' || c = ';'

/-- Whether `re.search` of the metacharacter alternation finds a match iff some
character of the command is a metacharacter. -/
def containsMeta (cmd : List Char) : Bool :=
  cmd.any isShellMeta

/-- Source method `_parse_command`: if the command contains a shell metacharacter,
return `"sh -c '" + cmd + "'"`, otherwise return the command unchanged. -/
def parse_command (cmd : List Char) : List Char :=
  if containsMeta cmd then "sh -c '".toList ++ cmd ++ ['\''] else cmd

/-- The argv handed to `subprocess.Popen` by both pipe-openers:
`shlex.split(self._parse_command(cmd))`. -/
def spawnArgv (cmd : List Char) : Option (List (List Char)) :=
  shlexSplit (parse_command cmd)

/-- Source method `_open_file(file, mode)`: strip the path, try `open`; on `IOError`
print `failed to open <path>` to `sys.stderr` and leave `_fo` as `None`. -/
def open_file (file : List Char) (mode : String) (env : Env) : PState :=
  if env.openOk (pyStrip file) mode then
    { fo := some (.fileHandle (pyStrip file) mode), proc := none, diag := none }
  else
    { fo := none, proc := none,
      diag := some ("failed to open ".toList ++ pyStrip file) }

/-- Source method `_rd_open_pipe(cmd)`: `Popen(shlex.split(self._parse_command(cmd)),
stdout=PIPE, stderr=PIPE)` and `_fo = proc.stdout`.  `shlex.split` raising
`ValueError` and `Popen` raising `OSError` (the Python 2 spawn-failure class)
both escape the `try`, whose handler only catches `IOError`. -/
def rd_open_pipe (cmd : List Char) (env : Env) : Except PyExc PState :=
  match spawnArgv cmd with
  | none => .error .valueError
  | some argv =>
      if env.spawnOk argv then
        .ok { fo := some (.procOut argv), proc := some argv, diag := none }
      else
        .error .osError

/-- Source method `_wr_open_pipe(cmd)`: as `_rd_open_pipe` but with `stdin=PIPE` and
`_fo = proc.stdin`. -/
def wr_open_pipe (cmd : List Char) (env : Env) : Except PyExc PState :=
  match spawnArgv cmd with
  | none => .error .valueError
  | some argv =>
      if env.spawnOk argv then
        .ok { fo := some (.procIn argv), proc := some argv, diag := none }
      else
        .error .osError

/-- The open mode `PerlIO.__init__` dispatches to, as a first-match-wins
classification of the stripped descriptor.  `indexErr` marks the places where
the source indexes out of range: `open_str[-1]` on the empty string and
`open_str[1]` on the one-character string `>`. -/
inductive Mode where
  | rdPipe (cmd : List Char)
  | wrPipe (cmd : List Char)
  | file (path : List Char) (mode : String)
  | stdinAlias
  | stdoutAlias
  | indexErr
deriving DecidableEq

/-- The branch chain of `PerlIO.__init__` on a non-empty stripped descriptor
`c :: cs` (so `open_str[-1]` is `cs.getLastD c`, `open_str[0]` is `c`,
`open_str[1:]` is `cs`, `open_str[0:2]` is `c` followed by `cs.head?`). -/
def classifyNE (c : Char) (cs : List Char) : Mode :=
  if cs.getLastD c = '|' then .rdPipe (List.dropLast (c :: cs))
  else if c = '|' then .wrPipe cs
  else if c = '>' then
    match cs with
    | [] => .indexErr
    | c2 :: rest => if c2 = '>' then .file rest "a" else .file (c2 :: rest) "w"
  else if c = '<' then .file cs "r"
  else if c = '+' ∧ (cs.head? = some '>' ∨ cs.head? = some '<') then
    .file (cs.drop 1) "r+"
  else if c :: cs = ['-'] then .stdinAlias
  else if c :: cs = ['>', '-'] then .stdoutAlias
  else .file (c :: cs) "r"

/-- The classification performed by `PerlIO.__init__`: strip the descriptor,
then run the branch chain; the empty result indexes out of range at
`open_str[-1]`. -/
def classify (open_str : List Char) : Mode :=
  match pyStrip open_str with
  | [] => .indexErr
  | c :: cs => classifyNE c cs

/-- Execute the classified mode: open a pipe, open a file (catching
`IOError`), bind `sys.stdin`/`sys.stdout`, or raise `IndexError`. -/
def interpret (m : Mode) (env : Env) : Except PyExc PState :=
  match m with
  | .rdPipe cmd => rd_open_pipe cmd env
  | .wrPipe cmd => wr_open_pipe cmd env
  | .file path mode => .ok (open_file path mode env)
  | .stdinAlias => .ok { fo := some .stdin, proc := none, diag := none }
  | .stdoutAlias => .ok { fo := some .stdout, proc := none, diag := none }
  | .indexErr => .error .indexError

/-- Source constructor `__init__(open_str)` of the wrapper class. -/
def perl_init (open_str : List Char) (env : Env) : Except PyExc PState :=
  interpret (classify open_str) env

/-- Source property `err_fo`: `self._proc.stderr`; when `_proc` is `None` this is an
attribute access on `None` and raises `AttributeError`. -/
def err_fo (st : PState) : Except PyExc PyStream :=
  match st.proc with
  | none => .error .attributeError
  | some argv => .ok (.procErr argv)

/-- What `PerlIO.close` does: either close the primary stream with
`file.close()`, or run the blocking `Popen.communicate()` (wait for the child
to exit, drain and close its pipes). -/
inductive CloseEffect where
  | closedStream (s : PyStream)
  | communicated (argv : List (List Char))
deriving DecidableEq

/-- Source method `close`: if `_proc` is `None` call `self._fo.close()` (an
`AttributeError` when `_fo` is also `None`), otherwise call
`self._proc.communicate()`. -/
def close (st : PState) : Except PyExc CloseEffect :=
  match st.proc with
  | none =>
      match st.fo with
      | none => .error .attributeError
      | some s => .ok (.closedStream s)
  | some argv => .ok (.communicated argv)

/-- Source method `__exit__`: unconditionally calls `self.close()`. -/
def perl_exit (st : PState) : Except PyExc CloseEffect :=
  close st

/-- The wrapper holds a plain (non-process) stream: `_proc` is `None` and
`_fo` is set. -/
def plainFileActive (st : PState) : Prop :=
  st.proc = none ∧ st.fo ≠ none

/-- The wrapper is process-backed: `_proc` is set. -/
def procBacked (st : PState) : Prop :=
  st.proc ≠ none

/-- An environment where every open and every spawn succeeds. -/
def envT : Env :=
  { openOk := fun _ _ => true, spawnOk := fun _ => true }

/-- An environment where every spawn fails (raising `OSError`) and every file
open succeeds. -/
def envNoSpawn : Env :=
  { openOk := fun _ _ => true, spawnOk := fun _ => false }

/-- An environment where every file open fails (raising `IOError`) and every
spawn succeeds. -/
def envNoOpen : Env :=
  { openOk := fun _ _ => false, spawnOk := fun _ => true }

/-- Model of the runtime's text-file store for the round-trip property: a map
from path to the lines the file holds.  Writing in mode `w` truncates and
stores exactly the written lines; reading returns them. -/
abbrev FS := List Char → Option (List (List Char))

/-- Write lines `L` to path `p` (truncate-or-create, Python mode `w`). -/
def writeLines (fs : FS) (p : List Char) (L : List (List Char)) : FS :=
  fun q => if q = p then some L else fs q

/-- Read the lines of the file at path `p`. -/
def readFile (fs : FS) (p : List Char) : Option (List (List Char)) :=
  fs p

/-- Stripping a whitespace-only descriptor yields the empty string. -/
theorem pyStrip_eq_nil (s : List Char) (h : ∀ c ∈ s, isPyWS c = true) :
    pyStrip s = [] := by
  unfold pyStrip
  rw [List.dropWhile_eq_nil_iff.mpr h]
  rfl

/-- A leading whitespace character is removed by `str.strip()`. -/
theorem pyStrip_ws_cons (c : Char) (s : List Char) (hc : isPyWS c = true) :
    pyStrip (c :: s) = pyStrip s := by
  unfold pyStrip
  rw [List.dropWhile_cons_of_pos hc]

/-- A stripped descriptor ending in the pipe character dispatches to
`_rd_open_pipe` on the text before the pipe, whatever that text is. -/
theorem classify_rd_pipe (t : List Char)
    (h : pyStrip (t ++ ['|']) = t ++ ['|']) :
    classify (t ++ ['|']) = .rdPipe t := by
  cases t with
  | nil => decide
  | cons a t' =>
      unfold classify
      rw [h]
      show classifyNE a (t' ++ ['|']) = .rdPipe (a :: t')
      unfold classifyNE
      rw [List.getLastD_concat, if_pos rfl]
      have hd : List.dropLast (a :: (t' ++ ['|'])) = a :: t' := by
        rw [← List.cons_append, List.dropLast_concat]
      rw [hd]

/-- A stripped descriptor that starts with the pipe character and does not end
with it dispatches to `_wr_open_pipe` on the text after the pipe. -/
theorem classify_wr_pipe (t : List Char)
    (h : pyStrip ('|' :: t) = '|' :: t) (hlast : t.getLastD '|' ≠ '|') :
    classify ('|' :: t) = .wrPipe t := by
  unfold classify
  rw [h]
  show classifyNE '|' t = .wrPipe t
  unfold classifyNE
  rw [if_neg hlast]
  rfl

/-- A stripped descriptor starting with two greater-thans (and not ending in a
pipe) dispatches to `_open_file` in append mode on the text after them. -/
theorem classify_append_mode (t : List Char)
    (h : pyStrip ('>' :: '>' :: t) = '>' :: '>' :: t)
    (hlast : t.getLastD '>' ≠ '|') :
    classify ('>' :: '>' :: t) = .file t "a" := by
  unfold classify
  rw [h]
  show classifyNE '>' ('>' :: t) = .file t "a"
  unfold classifyNE
  rw [List.getLastD_cons, if_neg hlast]
  rfl

/-- A stripped descriptor starting with a single greater-than (and not ending
in a pipe) dispatches to `_open_file` in truncating write mode on the text
after it. -/
theorem classify_write_mode (c : Char) (t : List Char)
    (h : pyStrip ('>' :: c :: t) = '>' :: c :: t)
    (hc : c ≠ '>') (hlast : t.getLastD c ≠ '|') :
    classify ('>' :: c :: t) = .file (c :: t) "w" := by
  unfold classify
  rw [h]
  show classifyNE '>' (c :: t) = .file (c :: t) "w"
  unfold classifyNE
  rw [List.getLastD_cons, if_neg hlast]
  show (if c = '>' then Mode.file t "a" else Mode.file (c :: t) "w") =
    Mode.file (c :: t) "w"
  rw [if_neg hc]

/-- A stripped descriptor starting with a less-than (and not ending in a pipe)
dispatches to `_open_file` in read mode on the text after it. -/
theorem classify_read_angle (t : List Char)
    (h : pyStrip ('<' :: t) = '<' :: t) (hlast : t.getLastD '<' ≠ '|') :
    classify ('<' :: t) = .file t "r" := by
  unfold classify
  rw [h]
  show classifyNE '<' t = .file t "r"
  unfold classifyNE
  rw [if_neg hlast]
  rfl

/-- A stripped descriptor starting with plus-greater or plus-less (and not
ending in a pipe) dispatches to `_open_file` in update mode `r+`. -/
theorem classify_update_mode (c : Char) (t : List Char) (hc : c = '>' ∨ c = '<')
    (h : pyStrip ('+' :: c :: t) = '+' :: c :: t)
    (hlast : t.getLastD c ≠ '|') :
    classify ('+' :: c :: t) = .file t "r+" := by
  rcases hc with rfl | rfl
  · unfold classify
    rw [h]
    show classifyNE '+' ('>' :: t) = .file t "r+"
    unfold classifyNE
    rw [List.getLastD_cons, if_neg hlast]
    rfl
  · unfold classify
    rw [h]
    show classifyNE '+' ('<' :: t) = .file t "r+"
    unfold classifyNE
    rw [List.getLastD_cons, if_neg hlast]
    rfl

/-- A stripped non-empty descriptor matching none of the earlier patterns
dispatches to `_open_file` in read mode on the whole descriptor. -/
theorem classify_default (c : Char) (cs : List Char)
    (h : pyStrip (c :: cs) = c :: cs) (hlast : cs.getLastD c ≠ '|')
    (h1 : c ≠ '|') (h2 : c ≠ '>') (h3 : c ≠ '<')
    (h4 : ¬(c = '+' ∧ (cs.head? = some '>' ∨ cs.head? = some '<')))
    (h5 : c :: cs ≠ ['-']) :
    classify (c :: cs) = .file (c :: cs) "r" := by
  have hgt : c :: cs ≠ ['>', '-'] := by
    intro e
    injection e with e1 _
    exact h2 e1
  unfold classify
  rw [h]
  show classifyNE c cs = .file (c :: cs) "r"
  unfold classifyNE
  rw [if_neg hlast, if_neg h1, if_neg h2, if_neg h3, if_neg h4, if_neg h5,
    if_neg hgt]

/-- Inside single quotes the lexer copies every character up to the closing
quote literally into the current token. -/
theorem shlexStep_single_run (X : List Char) (rest tok : List Char)
    (h : '\'' ∉ X) :
    shlexStep (X ++ '\'' :: rest) .single tok =
      shlexStep rest (.norm true) (X.reverse ++ tok) := by
  induction X generalizing tok with
  | nil => simp [shlexStep]
  | cons c cs ih =>
      have hc : ¬(c = '\'') := by
        intro e
        rw [e] at h
        exact h (List.mem_cons_self _ _)
      have hcs : '\'' ∉ cs := fun m => h (List.mem_cons_of_mem _ m)
      show shlexStep (c :: (cs ++ '\'' :: rest)) .single tok = _
      rw [shlexStep, if_neg hc, ih (c :: tok) hcs]
      simp

/-- Wrapping a quote-free command in `sh -c '...'` and running `shlex.split`
yields exactly the three tokens `sh`, `-c`, and the command itself. -/
theorem shlex_sh_c_wrap (X : List Char) (h : '\'' ∉ X) :
    shlexSplit ("sh -c '".toList ++ X ++ ['\'']) =
      some ["sh".toList, "-c".toList, X] := by
  have e : shlexSplit ("sh -c '".toList ++ X ++ ['\'']) =
      Option.map (fun ts => ['s', 'h'] :: ts)
        (Option.map (fun ts => ['-', 'c'] :: ts)
          (shlexStep (X ++ ['\'']) .single [])) := rfl
  rw [e, shlexStep_single_run X [] [] h]
  simp [shlexStep]

/-- Every wrapper the constructor returns normally has one of six shapes:
a read pipe from a process, a write pipe to a process, an opened file, a
reported open failure with no stream, or one of the two standard-stream
aliases. -/
theorem init_shapes (open_str : List Char) (env : Env) (st : PState)
    (h : perl_init open_str env = .ok st) :
    (∃ argv, st = { fo := some (.procOut argv), proc := some argv, diag := none }) ∨
    (∃ argv, st = { fo := some (.procIn argv), proc := some argv, diag := none }) ∨
    (∃ p m, st = { fo := some (.fileHandle p m), proc := none, diag := none }) ∨
    (∃ d, st = { fo := none, proc := none, diag := some d }) ∨
    st = { fo := some .stdin, proc := none, diag := none } ∨
    st = { fo := some .stdout, proc := none, diag := none } := by
  unfold perl_init at h
  cases hm : classify open_str with
  | rdPipe cmd =>
      rw [hm] at h
      simp only [interpret] at h
      unfold rd_open_pipe at h
      split at h
      · exact absurd h (by simp)
      · split at h
        · simp only [Except.ok.injEq] at h
          subst h
          exact Or.inl ⟨_, rfl⟩
        · exact absurd h (by simp)
  | wrPipe cmd =>
      rw [hm] at h
      simp only [interpret] at h
      unfold wr_open_pipe at h
      split at h
      · exact absurd h (by simp)
      · split at h
        · simp only [Except.ok.injEq] at h
          subst h
          exact Or.inr (Or.inl ⟨_, rfl⟩)
        · exact absurd h (by simp)
  | file p m =>
      rw [hm] at h
      simp only [interpret, Except.ok.injEq] at h
      subst h
      unfold open_file
      split
      · exact Or.inr (Or.inr (Or.inl ⟨pyStrip p, m, rfl⟩))
      · exact Or.inr (Or.inr (Or.inr (Or.inl
          ⟨"failed to open ".toList ++ pyStrip p, rfl⟩)))
  | stdinAlias =>
      rw [hm] at h
      simp only [interpret, Except.ok.injEq] at h
      subst h
      exact Or.inr (Or.inr (Or.inr (Or.inr (Or.inl rfl))))
  | stdoutAlias =>
      rw [hm] at h
      simp only [interpret, Except.ok.injEq] at h
      subst h
      exact Or.inr (Or.inr (Or.inr (Or.inr (Or.inr rfl))))
  | indexErr =>
      rw [hm] at h
      exact absurd h (by simp [interpret])

/-- Helper: a successful spawn through `_rd_open_pipe` yields the wrapper
whose primary stream is the child's standard output. -/
theorem rd_open_pipe_ok (cmd : List Char) (env : Env) (argv : List (List Char))
    (hs : spawnArgv cmd = some argv) (hk : env.spawnOk argv = true) :
    rd_open_pipe cmd env =
      .ok { fo := some (.procOut argv), proc := some argv, diag := none } := by
  unfold rd_open_pipe
  rw [hs]
  simp [hk]

/-- C1: the claim says descriptor `-` binds the primary stream to standard
input and `>-` binds it to standard output.  The first half is what the code
does, but `>-` is captured by the earlier `open_str[0] == '>'` branch, so the
constructor opens a file named `-` for writing; the `elif open_str == '>-'`
branch of the source is unreachable dead code, showing the claimed behaviour
was intended. -/
theorem C1_stdio_alias_dispatch :
    perl_init ['-'] envT = .ok { fo := some .stdin, proc := none, diag := none } ∧
    perl_init ['>', '-'] envT =
      .ok { fo := some (.fileHandle ['-'] "w"), proc := none, diag := none } ∧
    classify ['>', '-'] ≠ .stdoutAlias :=
  ⟨rfl, rfl, by decide⟩

/-- C2 (amended): with a metacharacter present the code does not hand the
whole remaining string to the shell verbatim; it builds the text
`sh -c '<cmd>'` and then runs `shlex.split` on it, which re-interprets any
single quotes inside the command.  Only for commands free of single quotes
does this amount to `sh -c` with the whole string as the single argument.
With no metacharacter, the argv is the shlex split of the command itself and
no shell is involved. -/
theorem C2_shell_dispatch (cmd : List Char) :
    (containsMeta cmd = true → '\'' ∉ cmd →
      spawnArgv cmd = some ["sh".toList, "-c".toList, cmd]) ∧
    (containsMeta cmd = false → spawnArgv cmd = shlexSplit cmd) := by
  constructor
  · intro hm hq
    unfold spawnArgv parse_command
    rw [hm]
    exact shlex_sh_c_wrap cmd hq
  · intro hm
    unfold spawnArgv parse_command
    rw [hm]
    simp

/-- C2 counterexample: the command `echo 'a' | cat` contains a metacharacter,
but the argv actually spawned is `sh -c` with third argument `echo a | cat`:
the single quotes were consumed by the re-split, so the whole remaining
string is not passed as the single argument, contrary to the claim. -/
theorem C2_quote_mangling_counterexample :
    containsMeta ("echo 'a' | cat".toList) = true ∧
    spawnArgv ("echo 'a' | cat".toList) =
      some ["sh".toList, "-c".toList, "echo a | cat".toList] ∧
    spawnArgv ("echo 'a' | cat".toList) ≠
      some ["sh".toList, "-c".toList, "echo 'a' | cat".toList] := by decide

/-- C2 witness: a quote-free command with a metacharacter goes to
`sh -c` with the whole command as one argument, and a metacharacter-free
command is split directly. -/
theorem C2_shell_dispatch_witness :
    (containsMeta ("ls | wc".toList) = true ∧
      spawnArgv ("ls | wc".toList) =
        some ["sh".toList, "-c".toList, "ls | wc".toList]) ∧
    (containsMeta ("ls -l".toList) = false ∧
      spawnArgv ("ls -l".toList) = shlexSplit ("ls -l".toList)) :=
  ⟨⟨by decide, (C2_shell_dispatch ("ls | wc".toList)).1 (by decide) (by decide)⟩,
   ⟨by decide, (C2_shell_dispatch ("ls -l".toList)).2 (by decide)⟩⟩

/-- C3: the claim says a failing open or spawn never raises past the
constructor.  File opens do behave that way (`except IOError` catches the
failure, prints a diagnostic, leaves `_fo` as `None`), but a spawn failure in
Python 2 raises `OSError`, which `except IOError` does not catch, so the
constructor raises — contradicting the module's own docstring, which promises
`fo` is `None` when it "failed to open a file or pipe". -/
theorem C3_open_failure_behaviour :
    perl_init ("badcmd |".toList) envNoSpawn = .error .osError ∧
    perl_init ("nofile".toList) envNoOpen =
      .ok { fo := none, proc := none,
            diag := some ("failed to open nofile".toList) } :=
  ⟨rfl, rfl⟩

/-- C4: a trimmed descriptor ending in `|` is always read-from-process mode
(trailing bar stripped, child stdout captured as the readable stream), no
matter how the string starts; only a string not ending in `|` but starting
with `|` is write-to-process mode. -/
theorem C4_trailing_pipe_priority (t : List Char) (env : Env) :
    (pyStrip (t ++ ['|']) = t ++ ['|'] → classify (t ++ ['|']) = .rdPipe t) ∧
    (pyStrip (t ++ ['|']) = t ++ ['|'] → ∀ argv, spawnArgv t = some argv →
      env.spawnOk argv = true →
      perl_init (t ++ ['|']) env =
        .ok { fo := some (.procOut argv), proc := some argv, diag := none }) ∧
    (pyStrip ('|' :: t) = '|' :: t → t.getLastD '|' ≠ '|' →
      classify ('|' :: t) = .wrPipe t) := by
  refine ⟨fun h => classify_rd_pipe t h, fun h argv hs hk => ?_,
    fun h hl => classify_wr_pipe t h hl⟩
  unfold perl_init
  rw [classify_rd_pipe t h]
  simp only [interpret]
  exact rd_open_pipe_ok t env argv hs hk

/-- C4 witness: `|x|` ends with a bar and also starts with one; the trailing
bar wins and the mode is read-from-process on the text `|x`. -/
theorem C4_trailing_pipe_priority_witness :
    classify ("|x".toList ++ ['|']) = .rdPipe ("|x".toList) :=
  (C4_trailing_pipe_priority ("|x".toList) envT).1 (by decide)

/-- C5 (amended): the file-mode dispatch of the constructor: `>>` prefixed
strings open in append mode, `>` (with at least one character after it) in
truncating write mode, `<` in read mode, `+>`/`+<` in update mode `r+`, and
any trimmed string matching no earlier pattern is a path opened for reading;
`_open_file` strips the path of surrounding whitespace in every case.  The
one-character descriptor `>` does not open the empty path for writing: it
raises `IndexError` at `open_str[1]`. -/
theorem C5_file_mode_dispatch (env : Env) :
    (∀ t : List Char, pyStrip ('>' :: '>' :: t) = '>' :: '>' :: t →
      t.getLastD '>' ≠ '|' →
      perl_init ('>' :: '>' :: t) env = .ok (open_file t "a" env)) ∧
    (∀ c t, pyStrip ('>' :: c :: t) = '>' :: c :: t → c ≠ '>' →
      t.getLastD c ≠ '|' →
      perl_init ('>' :: c :: t) env = .ok (open_file (c :: t) "w" env)) ∧
    (∀ t, pyStrip ('<' :: t) = '<' :: t → t.getLastD '<' ≠ '|' →
      perl_init ('<' :: t) env = .ok (open_file t "r" env)) ∧
    (∀ c t, (c = '>' ∨ c = '<') → pyStrip ('+' :: c :: t) = '+' :: c :: t →
      t.getLastD c ≠ '|' →
      perl_init ('+' :: c :: t) env = .ok (open_file t "r+" env)) ∧
    (∀ c cs, pyStrip (c :: cs) = c :: cs → cs.getLastD c ≠ '|' →
      c ≠ '|' → c ≠ '>' → c ≠ '<' →
      ¬(c = '+' ∧ (cs.head? = some '>' ∨ cs.head? = some '<')) →
      c :: cs ≠ ['-'] →
      perl_init (c :: cs) env = .ok (open_file (c :: cs) "r" env)) ∧
    (∀ p m, env.openOk (pyStrip p) m = true →
      open_file p m env =
        { fo := some (.fileHandle (pyStrip p) m), proc := none, diag := none }) ∧
    perl_init ['>'] env = .error .indexError := by
  refine ⟨fun t h hl => ?_, fun c t h hc hl => ?_, fun t h hl => ?_,
    fun c t hc h hl => ?_, fun c cs h hl h1 h2 h3 h4 h5 => ?_,
    fun p m ho => ?_, rfl⟩
  · unfold perl_init
    rw [classify_append_mode t h hl]
    rfl
  · unfold perl_init
    rw [classify_write_mode c t h hc hl]
    rfl
  · unfold perl_init
    rw [classify_read_angle t h hl]
    rfl
  · unfold perl_init
    rw [classify_update_mode c t hc h hl]
    rfl
  · unfold perl_init
    rw [classify_default c cs h hl h1 h2 h3 h4 h5]
    rfl
  · unfold open_file
    rw [if_pos ho]

/-- C5 counterexample: the descriptor `>` starts with `>` and not `>>`, yet
the constructor raises `IndexError` instead of opening the (empty) path after
the prefix for writing. -/
theorem C5_single_gt_counterexample :
    perl_init ['>'] envT = .error .indexError ∧
    classify ['>'] = .indexErr :=
  ⟨rfl, rfl⟩

/-- C5 witness: `>> f` (with its inner space) opens the stripped path `f` in
append mode. -/
theorem C5_file_mode_dispatch_witness :
    perl_init ('>' :: '>' :: [' ', 'f']) envT =
      .ok (open_file [' ', 'f'] "a" envT) :=
  (C5_file_mode_dispatch envT).1 [' ', 'f'] (by decide) (by decide)

/-- C6: closing a wrapper whose `_proc` is unset closes its primary stream
with `file.close()`; closing a process-backed wrapper instead runs the
blocking `Popen.communicate()`, which waits for the child to exit and drains
and closes its pipes. -/
theorem C6_close_dispatch (st : PState) :
    (∀ argv, st.proc = some argv → close st = .ok (.communicated argv)) ∧
    (∀ s, st.proc = none → st.fo = some s → close st = .ok (.closedStream s)) := by
  constructor
  · intro argv hp
    unfold close
    rw [hp]
  · intro s hp hf
    unfold close
    rw [hp, hf]

/-- C6 witness: a concrete process-backed wrapper communicates on close, and
a concrete file-backed wrapper closes its stream. -/
theorem C6_close_dispatch_witness :
    close { fo := some (.procOut [['c']]), proc := some [['c']], diag := none } =
      .ok (.communicated [['c']]) ∧
    close { fo := some (.fileHandle ['f'] "r"), proc := none, diag := none } =
      .ok (.closedStream (.fileHandle ['f'] "r")) :=
  ⟨(C6_close_dispatch _).1 [['c']] rfl,
   (C6_close_dispatch _).2 (.fileHandle ['f'] "r") rfl rfl⟩

/-- C7 (amended): for every wrapper the constructor returns, at most one of
{plain file stream, process-backed stream} is active — exactly one unless a
file open failed, in which case neither is active, `_fo` is `None` and a
diagnostic was recorded; the error stream is obtainable exactly in the
process-backed case (otherwise `err_fo` raises `AttributeError`); and no
operation mutates the wrapper, so which case holds never changes. -/
theorem C7_stream_invariant (open_str : List Char) (env : Env) (st : PState)
    (h : perl_init open_str env = .ok st) :
    ¬(plainFileActive st ∧ procBacked st) ∧
    (procBacked st → st.fo ≠ none) ∧
    (st.fo = none → st.proc = none ∧ st.diag ≠ none) ∧
    (procBacked st ↔ ∃ e, err_fo st = .ok e) ∧
    (¬procBacked st → err_fo st = .error .attributeError) := by
  rcases init_shapes open_str env st h with
    ⟨a, rfl⟩ | ⟨a, rfl⟩ | ⟨p, m, rfl⟩ | ⟨d, rfl⟩ | rfl | rfl <;>
    simp [plainFileActive, procBacked, err_fo]

/-- C7 counterexample: a wrapper whose file open failed has neither a plain
file stream nor a process-backed stream active, refuting the "exactly one"
half of the claim. -/
theorem C7_neither_active_counterexample :
    perl_init ['f'] envNoOpen =
      .ok { fo := none, proc := none,
            diag := some ("failed to open f".toList) } ∧
    ¬plainFileActive
      { fo := none, proc := none, diag := some ("failed to open f".toList) } ∧
    ¬procBacked
      { fo := none, proc := none, diag := some ("failed to open f".toList) } :=
  ⟨rfl, fun hp => hp.2 rfl, fun hp => hp rfl⟩

/-- C7 witness: the invariant instantiated at a successfully opened plain
file wrapper. -/
theorem C7_stream_invariant_witness :
    ¬(plainFileActive
        { fo := some (.fileHandle ['x'] "r"), proc := none, diag := none } ∧
      procBacked
        { fo := some (.fileHandle ['x'] "r"), proc := none, diag := none }) :=
  (C7_stream_invariant ['x'] envT
    { fo := some (.fileHandle ['x'] "r"), proc := none, diag := none } rfl).1

/-- C8 (amended): the write/read round trip.  For a path P that is non-empty,
already trimmed, does not end in `|`, does not start with `|`, `>`, `<` or
`+`, and is not `-`, the descriptor `> P` opens P truncating for write,
`< P` and bare `P` open P for reading, and reading a file after writing lines
L to it yields exactly L.  (For adversarial paths — for example a path ending
in `|` — the descriptor grammar captures the string first, so the unrestricted
claim fails; see the counterexample.) -/
theorem C8_round_trip (P : List Char) (L : List (List Char)) (fs : FS)
    (env : Env) (hne : P ≠ []) (hstrip : pyStrip P = P)
    (hgt : pyStrip ('>' :: ' ' :: P) = '>' :: ' ' :: P)
    (hlt : pyStrip ('<' :: ' ' :: P) = '<' :: ' ' :: P)
    (hlast : P.getLastD ' ' ≠ '|')
    (hhead : P.headD ' ' ≠ '|' ∧ P.headD ' ' ≠ '>' ∧ P.headD ' ' ≠ '<' ∧
      P.headD ' ' ≠ '+')
    (hdash : P ≠ ['-'])
    (hw : env.openOk P "w" = true) (hr : env.openOk P "r" = true) :
    perl_init ('>' :: ' ' :: P) env =
      .ok { fo := some (.fileHandle P "w"), proc := none, diag := none } ∧
    perl_init ('<' :: ' ' :: P) env =
      .ok { fo := some (.fileHandle P "r"), proc := none, diag := none } ∧
    perl_init P env =
      .ok { fo := some (.fileHandle P "r"), proc := none, diag := none } ∧
    readFile (writeLines fs P L) P = some L := by
  have e1 : pyStrip (' ' :: P) = P := by
    rw [pyStrip_ws_cons ' ' P (by decide), hstrip]
  refine ⟨?_, ?_, ?_, ?_⟩
  · unfold perl_init
    rw [classify_write_mode ' ' P hgt (by decide) hlast]
    simp only [interpret]
    unfold open_file
    rw [e1, if_pos hw]
  · have hl2 : (' ' :: P).getLastD '<' ≠ '|' := by
      rw [List.getLastD_cons]
      exact hlast
    unfold perl_init
    rw [classify_read_angle (' ' :: P) hlt hl2]
    simp only [interpret]
    unfold open_file
    rw [e1, if_pos hr]
  · obtain ⟨n1, n2, n3, n4⟩ := hhead
    rcases P with _ | ⟨c, cs⟩
    · exact absurd rfl hne
    · simp only [List.headD_cons] at n1 n2 n3 n4
      have hl3 : cs.getLastD c ≠ '|' := by
        rw [← List.getLastD_cons (a := ' ')]
        exact hlast
      have h4 : ¬(c = '+' ∧ (cs.head? = some '>' ∨ cs.head? = some '<')) :=
        fun hp => n4 hp.1
      unfold perl_init
      rw [classify_default c cs hstrip hl3 n1 n2 n3 h4 hdash]
      simp only [interpret]
      unfold open_file
      rw [hstrip, if_pos hr]
  · unfold readFile writeLines
    simp

/-- C8 counterexample: for the path `a|`, the descriptor `> a|` is captured
by the trailing-pipe rule before any file pattern applies: the constructor
spawns a shell process instead of opening a file named `a|` for writing, so
the unrestricted round-trip claim fails at this path. -/
theorem C8_pipe_path_counterexample :
    classify ("> a|".toList) = .rdPipe ("> a".toList) ∧
    perl_init ("> a|".toList) envT =
      .ok { fo := some (.procOut ["sh".toList, "-c".toList, "> a".toList]),
            proc := some ["sh".toList, "-c".toList, "> a".toList],
            diag := none } :=
  ⟨rfl, rfl⟩

/-- C8 witness: the round trip instantiated at the path `f` and the single
line `a`. -/
theorem C8_round_trip_witness :
    perl_init ('>' :: ' ' :: ['f']) envT =
      .ok { fo := some (.fileHandle ['f'] "w"), proc := none, diag := none } ∧
    perl_init ('<' :: ' ' :: ['f']) envT =
      .ok { fo := some (.fileHandle ['f'] "r"), proc := none, diag := none } ∧
    perl_init ['f'] envT =
      .ok { fo := some (.fileHandle ['f'] "r"), proc := none, diag := none } ∧
    readFile (writeLines (fun _ => none) ['f'] [['a']]) ['f'] =
      some [['a']] :=
  C8_round_trip ['f'] [['a']] (fun _ => none) envT (by decide) (by decide)
    (by decide) (by decide) (by decide) (by decide) (by decide) rfl rfl

/-- C9: a descriptor that is empty or all whitespace strips to the empty
string, and `open_str[-1]` then raises `IndexError` out of the constructor —
no wrapper is built and no invalid-descriptor diagnostic is reported. -/
theorem C9_whitespace_descriptor (s : List Char) (env : Env)
    (h : ∀ c ∈ s, isPyWS c = true) :
    perl_init s env = .error .indexError := by
  unfold perl_init classify
  rw [pyStrip_eq_nil s h]
  rfl

/-- C9 witness: the two-character all-whitespace descriptor raises
`IndexError`. -/
theorem C9_whitespace_descriptor_witness :
    perl_init [' ', '\t'] envT = .error .indexError :=
  C9_whitespace_descriptor [' ', '\t'] envT (by decide)

/-- C10: on a wrapper whose open failed (`_fo` and `_proc` both `None`),
`close()` evaluates `None.close()` and raises `AttributeError`; `__exit__`
calls `close()`, so leaving a `with` block raises the same way. -/
theorem C10_close_after_failed_open (st : PState) (h1 : st.fo = none)
    (h2 : st.proc = none) :
    close st = .error .attributeError ∧
    perl_exit st = .error .attributeError := by
  constructor
  · unfold close
    rw [h2, h1]
  · unfold perl_exit close
    rw [h2, h1]

/-- C10 witness: the wrapper produced by a failed file open raises
`AttributeError` from `close`. -/
theorem C10_close_after_failed_open_witness :
    close { fo := none, proc := none,
            diag := some ("failed to open f".toList) } =
      .error .attributeError ∧
    perl_exit { fo := none, proc := none,
                diag := some ("failed to open f".toList) } =
      .error .attributeError :=
  C10_close_after_failed_open _ rfl rfl
